import Mathlib

/-!
Verification of the training-run orchestration logic in
`scripts/train_room_segmentation.py`.

The script is embedded shallowly: the file system is a partial map from
path strings to file contents, the schema augmenter and the two pipeline
phases (the part before the external training call, and the part after it)
become pure Lean functions returning explicit effect records, and the
hyperparameter dictionary becomes a structure with one field per key.
-/

namespace RoomSeg

/-- A file system fragment: a partial map from path strings to contents. -/
def FS (α : Type) : Type := String → Option α

/-- Writing a file: update the map at one path, overwriting any prior file. -/
def FS.update {α : Type} (fs : FS α) (p : String) (v : α) : FS α :=
  fun q => if q = p then some v else fs q

/-- A parsed `data.yaml` document.  `names` and `nc` are optional because
the yaml mapping may lack either key; `extra` stands for the unrelated keys
the script reads and rewrites verbatim. -/
structure DataYaml where
  names : Option (List String)
  nc : Option Int
  extra : List (String × String)
deriving DecidableEq, Repr

/-- The class the augmenter guarantees (`'ceiling'` in the script). -/
def requiredClass : String := "ceiling"

/-- Python's `str.lower`, modelled character by character over the string's
character sequence (the class names in play are ASCII). -/
def pyLower (s : String) : String := ⟨s.data.map Char.toLower⟩

/-- In-memory half of `create_enhanced_data_yaml` (lines 19-26): the
`names = data.get('names', [])` default, the case-insensitive membership
test, and on the mutation branch the append plus `data['nc'] = len(names)`.
Returns the resulting document and whether a mutation occurred. -/
def augmentNames (d : DataYaml) : DataYaml × Bool :=
  let names := d.names.getD []
  if requiredClass ∈ names.map pyLower then
    (d, false)
  else
    let names2 := names ++ [requiredClass]
    ({ d with names := some names2, nc := some ((names2.length : Int)) }, true)

/-- Error raised when `open(original_yaml_path)` finds no file. -/
inductive AugError where
  | notFound
deriving DecidableEq, Repr

/-- `create_enhanced_data_yaml(original_yaml_path, output_path)` (lines
14-31): open the input (FileNotFoundError if absent), run the in-memory
augmentation, and on the mutation branch only, dump the document to the
output path.  Returns the in-memory document and the resulting file system. -/
def create_enhanced_data_yaml (fs : FS DataYaml) (inPath outPath : String) :
    Except AugError (DataYaml × FS DataYaml) :=
  match fs inPath with
  | none => .error .notFound
  | some d =>
    let (d2, wrote) := augmentNames d
    .ok (d2, if wrote then fs.update outPath d2 else fs)

/-- The `device` entry: `0 if torch.cuda.is_available() else 'cpu'`. -/
inductive Device where
  | gpu (idx : Nat)
  | cpu
deriving DecidableEq, Repr

/-- The `training_args` dictionary (lines 80-123), one field per key.
Float literals are carried as exact rationals. -/
structure TrainingArgs where
  data : String
  epochs : Nat
  imgsz : Nat
  batch : Nat
  lr0 : ℚ
  lrf : ℚ
  momentum : ℚ
  weight_decay : ℚ
  warmup_epochs : ℚ
  warmup_momentum : ℚ
  warmup_bias_lr : ℚ
  box : ℚ
  cls : ℚ
  dfl : ℚ
  patience : Nat
  save : Bool
  save_period : Nat
  cache : Bool
  device : Device
  workers : Nat
  project : String
  name : String
  exist_ok : Bool
  pretrained : Bool
  optimizer : String
  amp : Bool
  cos_lr : Bool
  close_mosaic : Nat
  hsv_h : ℚ
  hsv_s : ℚ
  hsv_v : ℚ
  degrees : ℚ
  translate : ℚ
  scale : ℚ
  shear : ℚ
  perspective : ℚ
  flipud : ℚ
  fliplr : ℚ
  mosaic : ℚ
  mixup : ℚ
  copy_paste : ℚ

/-- `output_dir = Path("models/room_segmentation")` (line 59). -/
def outputDir : String := "models/room_segmentation"

/-- `enhanced_yaml = output_dir / "data_enhanced.yaml"` (line 63). -/
def enhancedYamlPath : String := "models/room_segmentation/data_enhanced.yaml"

/-- Construction of the `training_args` dictionary (lines 80-123) as a
function of the four caller-tunable parameters and the ambient CUDA
availability flag.  The `data` entry is always `str(enhanced_yaml)`. -/
def training_args (model_size : String) (epochs batch_size img_size : Nat)
    (cudaAvailable : Bool) : TrainingArgs :=
  { data := enhancedYamlPath
    epochs := epochs
    imgsz := img_size
    batch := batch_size
    lr0 := 1/100
    lrf := 1/100
    momentum := 937/1000
    weight_decay := 5/10000
    warmup_epochs := 3
    warmup_momentum := 8/10
    warmup_bias_lr := 1/10
    box := 75/10
    cls := 5/10
    dfl := 15/10
    patience := 50
    save := true
    save_period := 10
    cache := true
    device := if cudaAvailable then .gpu 0 else .cpu
    workers := 8
    project := outputDir
    name := "room_seg_" ++ model_size
    exist_ok := true
    pretrained := true
    optimizer := "AdamW"
    amp := true
    cos_lr := true
    close_mosaic := 10
    hsv_h := 15/1000
    hsv_s := 7/10
    hsv_v := 4/10
    degrees := 0
    translate := 1/10
    scale := 5/10
    shear := 0
    perspective := 0
    flipud := 0
    fliplr := 5/10
    mosaic := 1
    mixup := 0
    copy_paste := 0 }

/-- Failures of the pipeline phase before the training call: the missing
input file (FileNotFoundError from `open`) and the `data_config['names']` /
`data_config['nc']` subscripts on lines 68-69 (KeyError if a key is absent
from the returned document). -/
inductive PreError where
  | notFound
  | keyError
deriving DecidableEq, Repr

/-- Outcome of the pipeline phase before the training call: the directories
created, the resulting schema file system, and either an error or the
in-memory schema together with the built `training_args`. -/
structure PipelinePre where
  mkdirs : List String
  fs : FS DataYaml
  result : Except PreError (DataYaml × TrainingArgs)

/-- Lines 58-123 of `train_room_segmentation_model`: create the output
directory (`mkdir(parents=True, exist_ok=True)`, line 60), call
`create_enhanced_data_yaml(data_yaml, enhanced_yaml)` (line 66), subscript
`names` and `nc` for the progress prints (lines 68-69), then build
`training_args`.  The external model load (lines 72-77) touches no pipeline
state modelled here. -/
def pipelinePre (fs0 : FS DataYaml) (data_yaml : String) (model_size : String)
    (epochs batch_size img_size : Nat) (cudaAvailable : Bool) : PipelinePre :=
  let made := [outputDir]
  match create_enhanced_data_yaml fs0 data_yaml enhancedYamlPath with
  | .error .notFound => ⟨made, fs0, .error .notFound⟩
  | .ok (d, fs1) =>
    match d.names, d.nc with
    | some _, some _ =>
      ⟨made, fs1, .ok (d, training_args model_size epochs batch_size img_size cudaAvailable)⟩
    | _, _ => ⟨made, fs1, .error .keyError⟩

/-- `best_model_path = output_dir / f'room_seg_{model_size}' / 'weights' / 'best.pt'`
(line 129). -/
def bestModelPath (model_size : String) : String :=
  "models/room_segmentation/room_seg_" ++ model_size ++ "/weights/best.pt"

/-- `final_model_path = Path(f"room_segmentation_{model_size}.pt")` (line 140). -/
def finalModelPath (model_size : String) : String :=
  "room_segmentation_" ++ model_size ++ ".pt"

/-- The `data=` argument passed to `model.val` on line 136: again
`str(enhanced_yaml)`, never the original input path. -/
def valDataArg : String := enhancedYamlPath

/-- Failure of the phase after the training call: the f-string
`metrics.box.map` on line 137 raises AttributeError when the collaborator's
response lacks the metric field, and the exception propagates. -/
inductive PostError where
  | attrError
deriving DecidableEq, Repr

/-- Outcome of the phase after the training call: the `shutil.copy` calls
performed and the function's return value (`some path` for the promoted
artifact path, `none` for the `return None` on line 148). -/
structure PostTrain where
  copies : List (String × String)
  result : Except PostError (Option String)

/-- Lines 129-148 of `train_room_segmentation_model`: if the best
checkpoint exists, validate (aborting if the metric field is missing from
the collaborator's response) and then copy the checkpoint to the promoted
path, overwriting and returning it; otherwise print the failure message and
return `None`.  `valMetric` is the collaborator's `metrics.box.map` field,
`none` when absent. -/
def postTrain (fs : FS String) (model_size : String) (valMetric : Option ℚ) :
    PostTrain × FS String :=
  match fs (bestModelPath model_size) with
  | some content =>
    match valMetric with
    | none => (⟨[], .error .attrError⟩, fs)
    | some _ =>
      (⟨[(bestModelPath model_size, finalModelPath model_size)],
        .ok (some (finalModelPath model_size))⟩,
       fs.update (finalModelPath model_size) content)
  | none => (⟨[], .ok none⟩, fs)

/-! ## Theorems -/

/-- A file system holding one already-augmented schema with mixed-case class
names, used to instantiate the idempotence claim. -/
def fsMixedCase : FS DataYaml :=
  fun p => if p = "data.yaml"
    then some ⟨some ["wall", "floor", "Ceiling"], some 3, []⟩ else none

/-- Claim C3: on a schema whose class list already contains the required
class case-insensitively, the augmenter writes nothing (the file system is
returned unchanged) and returns the parsed document unchanged, and a second
run returns the identical document and file system again. -/
theorem augment_idempotent_noop (fs : FS DataYaml) (inPath outPath : String)
    (d : DataYaml) (hin : fs inPath = some d)
    (hc : requiredClass ∈ (d.names.getD []).map pyLower) :
    create_enhanced_data_yaml fs inPath outPath = .ok (d, fs) ∧
    (∀ d1 fs1, create_enhanced_data_yaml fs inPath outPath = .ok (d1, fs1) →
      create_enhanced_data_yaml fs1 inPath outPath = .ok (d1, fs1)) := by
  have h1 : create_enhanced_data_yaml fs inPath outPath = .ok (d, fs) := by
    unfold create_enhanced_data_yaml
    rw [hin]
    simp [augmentNames, hc]
  refine ⟨h1, fun d1 fs1 h2 => ?_⟩
  rw [h1] at h2
  cases h2
  exact h1

theorem augment_idempotent_noop_witness :
    create_enhanced_data_yaml fsMixedCase "data.yaml" enhancedYamlPath
        = .ok (⟨some ["wall", "floor", "Ceiling"], some 3, []⟩, fsMixedCase) ∧
    (∀ d1 fs1,
      create_enhanced_data_yaml fsMixedCase "data.yaml" enhancedYamlPath
          = .ok (d1, fs1) →
      create_enhanced_data_yaml fs1 "data.yaml" enhancedYamlPath
          = .ok (d1, fs1)) :=
  augment_idempotent_noop fsMixedCase "data.yaml" enhancedYamlPath
    ⟨some ["wall", "floor", "Ceiling"], some 3, []⟩ rfl (by decide)

/-- A file system holding the scenario-A schema, whose class list lacks the
required class. -/
def fsScenarioA : FS DataYaml :=
  fun p => if p = "data.yaml" then some ⟨some ["wall", "floor"], some 2, []⟩ else none

/-- Claim C4: on a schema missing the required class, the augmenter appends
it exactly once at the end (existing order and entries preserved), sets the
class count to the new length, and writes only to the output path: the
input path and every other path keep their previous contents. -/
theorem augment_appends_missing_class (fs : FS DataYaml) (inPath outPath : String)
    (d : DataYaml) (hin : fs inPath = some d)
    (hc : requiredClass ∉ (d.names.getD []).map pyLower)
    (hne : outPath ≠ inPath) :
    ∃ d2, create_enhanced_data_yaml fs inPath outPath = .ok (d2, fs.update outPath d2) ∧
      d2.names = some (d.names.getD [] ++ [requiredClass]) ∧
      d2.nc = some (((d.names.getD []).length : Int) + 1) ∧
      d2.extra = d.extra ∧
      fs.update outPath d2 inPath = fs inPath ∧
      fs.update outPath d2 outPath = some d2 ∧
      (∀ q, q ≠ outPath → fs.update outPath d2 q = fs q) := by
  refine ⟨({ d with
             names := some (d.names.getD [] ++ [requiredClass]),
             nc := some (((d.names.getD [] ++ [requiredClass]).length : Int)) }),
    ?_, rfl, by simp, rfl, ?_, ?_, ?_⟩
  · unfold create_enhanced_data_yaml
    rw [hin]
    simp [augmentNames, hc]
  · simp [FS.update, hne.symm]
  · simp [FS.update]
  · intro q hq
    simp [FS.update, hq]

theorem augment_appends_missing_class_witness :
    ∃ d2, create_enhanced_data_yaml fsScenarioA "data.yaml" enhancedYamlPath
        = .ok (d2, fsScenarioA.update enhancedYamlPath d2) ∧
      d2.names = some (["wall", "floor"] ++ [requiredClass]) ∧
      d2.nc = some ((([("wall" : String), "floor"].length : Int)) + 1) ∧
      d2.extra = [] ∧
      fsScenarioA.update enhancedYamlPath d2 "data.yaml" = fsScenarioA "data.yaml" ∧
      fsScenarioA.update enhancedYamlPath d2 enhancedYamlPath = some d2 ∧
      (∀ q, q ≠ enhancedYamlPath →
        fsScenarioA.update enhancedYamlPath d2 q = fsScenarioA q) :=
  augment_appends_missing_class fsScenarioA "data.yaml" enhancedYamlPath
    ⟨some ["wall", "floor"], some 2, []⟩ rfl (by decide) (by decide)

/-- Claim C10: when the input schema has no class-name list at all, the
augmenter treats it as empty and produces and writes a schema whose names
are exactly the singleton required class with class count 1. -/
theorem augment_no_names_key (fs : FS DataYaml) (inPath outPath : String)
    (d : DataYaml) (hin : fs inPath = some d) (hnames : d.names = none) :
    ∃ d2, create_enhanced_data_yaml fs inPath outPath = .ok (d2, fs.update outPath d2) ∧
      d2.names = some [requiredClass] ∧
      d2.nc = some 1 ∧
      fs.update outPath d2 outPath = some d2 := by
  refine ⟨{ d with names := some [requiredClass], nc := some 1 }, ?_, rfl, rfl, ?_⟩
  · unfold create_enhanced_data_yaml
    rw [hin]
    simp [augmentNames, hnames, requiredClass]
  · simp [FS.update]

/-- A file system holding a schema document with no names key. -/
def fsNoNames : FS DataYaml :=
  fun p => if p = "data.yaml" then some ⟨none, none, []⟩ else none

theorem augment_no_names_key_witness :
    ∃ d2, create_enhanced_data_yaml fsNoNames "data.yaml" enhancedYamlPath
        = .ok (d2, fsNoNames.update enhancedYamlPath d2) ∧
      d2.names = some [requiredClass] ∧
      d2.nc = some 1 ∧
      fsNoNames.update enhancedYamlPath d2 enhancedYamlPath = some d2 :=
  augment_no_names_key fsNoNames "data.yaml" enhancedYamlPath
    ⟨none, none, []⟩ rfl rfl

/-- A file system holding a schema that already contains the required class
but whose stored class count disagrees with the list length. -/
def fsBadCount : FS DataYaml :=
  fun p => if p = "data.yaml" then some ⟨some ["ceiling"], some 5, []⟩ else none

/-- Claim C8 counterexample: on the no-mutation branch the augmenter returns
the parsed document verbatim, so a schema whose stored class count is 5
against a one-element class list is returned with the invariant violated. -/
theorem augment_invariant_counterexample :
    ∃ d2 fs2, create_enhanced_data_yaml fsBadCount "data.yaml" enhancedYamlPath
        = .ok (d2, fs2) ∧
      d2.nc ≠ some ((d2.names.getD []).length : Int) := by
  exact ⟨⟨some ["ceiling"], some 5, []⟩, fsBadCount, rfl, by decide⟩

/-- Claim C8 (amended): the mutation branch establishes the count-equals-
length invariant; the no-mutation branch returns the input document
unchanged, so the returned document satisfies the invariant whenever the
input did. -/
theorem augment_invariant_amended (fs : FS DataYaml) (inPath outPath : String)
    (d : DataYaml) (hin : fs inPath = some d) :
    ∀ d2 fs2, create_enhanced_data_yaml fs inPath outPath = .ok (d2, fs2) →
      (d2.nc = some ((d2.names.getD []).length : Int) ∨ d2 = d) ∧
      (d.nc = some ((d.names.getD []).length : Int) →
        d2.nc = some ((d2.names.getD []).length : Int)) := by
  intro d2 fs2 h
  unfold create_enhanced_data_yaml at h
  rw [hin] at h
  by_cases hc : requiredClass ∈ (d.names.getD []).map pyLower
  · simp [augmentNames, hc] at h
    obtain ⟨rfl, rfl⟩ := h.1
    exact ⟨Or.inr rfl, fun hd => hd⟩
  · simp [augmentNames, hc] at h
    obtain ⟨rfl, -⟩ := h
    exact ⟨Or.inl (by simp), fun _ => by simp⟩

theorem augment_invariant_amended_witness :
    ((⟨some ["wall", "floor", "ceiling"], some 3, []⟩ : DataYaml).nc
        = some (((⟨some ["wall", "floor", "ceiling"], some 3, []⟩
            : DataYaml).names.getD []).length : Int) ∨
      (⟨some ["wall", "floor", "ceiling"], some 3, []⟩ : DataYaml)
        = ⟨some ["wall", "floor"], some 2, []⟩) ∧
    ((⟨some ["wall", "floor"], some 2, []⟩ : DataYaml).nc
        = some (((⟨some ["wall", "floor"], some 2, []⟩
            : DataYaml).names.getD []).length : Int) →
      (⟨some ["wall", "floor", "ceiling"], some 3, []⟩ : DataYaml).nc
        = some (((⟨some ["wall", "floor", "ceiling"], some 3, []⟩
            : DataYaml).names.getD []).length : Int)) :=
  augment_invariant_amended fsScenarioA "data.yaml" enhancedYamlPath
    ⟨some ["wall", "floor"], some 2, []⟩ rfl
    ⟨some ["wall", "floor", "ceiling"], some 3, []⟩
    (fsScenarioA.update enhancedYamlPath
      ⟨some ["wall", "floor", "ceiling"], some 3, []⟩)
    rfl

/-- Claim C5: for every choice of the caller-tunable parameters the built
configuration carries the documented defaults (learning rate 0.01, momentum
0.937, weight decay 0.0005, warm-up 3 epochs, early-stop patience 50);
overriding any one of the four named options changes only that option's
field (epochs, batch, imgsz, or the run name for the model scale); and the
build with only epochs set to 50 has epochs 50 and momentum 0.937. -/
theorem training_args_defaults_and_independent :
    (∀ (s : String) (e b i : Nat) (c : Bool),
      (training_args s e b i c).lr0 = 1/100 ∧
      (training_args s e b i c).momentum = 937/1000 ∧
      (training_args s e b i c).weight_decay = 5/10000 ∧
      (training_args s e b i c).warmup_epochs = 3 ∧
      (training_args s e b i c).patience = 50) ∧
    (∀ (s : String) (e e2 b i : Nat) (c : Bool),
      training_args s e2 b i c = { training_args s e b i c with epochs := e2 }) ∧
    (∀ (s : String) (e b b2 i : Nat) (c : Bool),
      training_args s e b2 i c = { training_args s e b i c with batch := b2 }) ∧
    (∀ (s : String) (e b i i2 : Nat) (c : Bool),
      training_args s e b i2 c = { training_args s e b i c with imgsz := i2 }) ∧
    (∀ (s s2 : String) (e b i : Nat) (c : Bool),
      training_args s2 e b i c =
        { training_args s e b i c with name := "room_seg_" ++ s2 }) ∧
    ((training_args "x" 50 16 640 false).epochs = 50 ∧
      (training_args "x" 50 16 640 false).momentum = 937/1000) :=
  ⟨fun _ _ _ _ _ => ⟨rfl, rfl, rfl, rfl, rfl⟩,
   fun _ _ _ _ _ _ => rfl, fun _ _ _ _ _ _ => rfl, fun _ _ _ _ _ _ => rfl,
   fun _ _ _ _ _ _ => rfl, rfl, rfl⟩

/-- Claim C6 counterexample: two builds with identical model scale, epoch
count, batch size and image size are not structurally equal when the
ambient CUDA availability differs — the device field depends on ambient
state. -/
theorem training_args_ambient_counterexample :
    training_args "x" 100 16 640 true ≠ training_args "x" 100 16 640 false := by
  intro h
  have hd := congrArg TrainingArgs.device h
  simp [training_args] at hd

/-- Claim C6 (amended): the configuration builder is deterministic in the
four caller-supplied inputs together with the ambient accelerator flag, and
the device field is the only field through which the ambient flag enters:
any two builds with the same four inputs agree on every other field. -/
theorem training_args_deterministic_modulo_device :
    ∀ (s : String) (e b i : Nat) (c1 c2 : Bool),
      training_args s e b i c1 =
        { training_args s e b i c2 with
          device := if c1 then Device.gpu 0 else Device.cpu } :=
  fun _ _ _ _ _ _ => rfl

/-- A checkpoint file system holding only the best checkpoint of the run for
scale "x". -/
def fsCkptX : FS String :=
  fun p => if p = bestModelPath "x" then some "ckpt-x-bytes" else none

/-- Claim C2 counterexample: the best checkpoint exists, yet with the metric
field absent from the collaborator's validation response the run aborts with
the attribute error, performs no copy, and the promoted artifact path stays
empty — no promoted artifact is produced. -/
theorem missing_metric_counterexample :
    fsCkptX (bestModelPath "x") = some "ckpt-x-bytes" ∧
    (postTrain fsCkptX "x" none).1.result = .error .attrError ∧
    (postTrain fsCkptX "x" none).1.copies = [] ∧
    (postTrain fsCkptX "x" none).2 (finalModelPath "x") = none :=
  ⟨rfl, rfl, rfl, rfl⟩

/-- Claim C2 (amended): when the best checkpoint exists but the validation
response lacks the metric field, the attribute error propagates before the
copy: the phase performs no copies, returns no path, and leaves the file
system untouched, so no promoted artifact is produced. -/
theorem missing_metric_aborts_promotion (fs : FS String) (s : String)
    (content : String) (hbest : fs (bestModelPath s) = some content) :
    postTrain fs s none = (⟨[], .error .attrError⟩, fs) := by
  unfold postTrain
  rw [hbest]

theorem missing_metric_aborts_promotion_witness :
    postTrain fsCkptX "x" none = (⟨[], .error .attrError⟩, fsCkptX) :=
  missing_metric_aborts_promotion fsCkptX "x" "ckpt-x-bytes" rfl

/-- A checkpoint file system holding only the best checkpoint of the run for
scale "l". -/
def fsCkptL : FS String :=
  fun p => if p = bestModelPath "l" then some "ckpt-l-bytes" else none

/-- Claim C7 counterexample: the best checkpoint is present, yet because the
validation response lacks the metric field the pipeline performs no copy and
does not return the destination path — presence of the checkpoint alone does
not yield the promoted artifact. -/
theorem promotion_counterexample :
    fsCkptL (bestModelPath "l") = some "ckpt-l-bytes" ∧
    (postTrain fsCkptL "l" none).1.copies = [] ∧
    (postTrain fsCkptL "l" none).1.result ≠ .ok (some (finalModelPath "l")) :=
  ⟨rfl, rfl, fun h => Except.noConfusion h⟩

/-- Claim C7 (amended): after the training call, if the best-checkpoint path
is absent the phase returns no path and performs no copy, whatever the
validation response; if it is present and the validation response carries
the metric, the phase copies it to the scale-derived destination —
overwriting anything there while the original stays in place — and returns
that destination path. -/
theorem promotion_amended (fs : FS String) (s : String) (m : ℚ)
    (hs : s ∈ ["x", "l", "m", "s"]) :
    (∀ v : Option ℚ, fs (bestModelPath s) = none →
      postTrain fs s v = (⟨[], .ok none⟩, fs)) ∧
    (∀ content : String, fs (bestModelPath s) = some content →
      postTrain fs s (some m) =
        (⟨[(bestModelPath s, finalModelPath s)], .ok (some (finalModelPath s))⟩,
         fs.update (finalModelPath s) content) ∧
      fs.update (finalModelPath s) content (bestModelPath s)
          = fs (bestModelPath s) ∧
      fs.update (finalModelPath s) content (finalModelPath s) = some content) := by
  have hne : bestModelPath s ≠ finalModelPath s := by
    simp only [List.mem_cons, List.not_mem_nil, or_false] at hs
    rcases hs with rfl | rfl | rfl | rfl <;> decide
  constructor
  · intro v habs
    unfold postTrain
    rw [habs]
  · intro content hbest
    refine ⟨?_, ?_, ?_⟩
    · unfold postTrain
      rw [hbest]
    · simp [FS.update, hne]
    · simp [FS.update]

theorem promotion_amended_witness :
    (∀ v : Option ℚ, fsCkptX (bestModelPath "l") = none →
      postTrain fsCkptX "l" v = (⟨[], .ok none⟩, fsCkptX)) ∧
    (∀ content : String, fsCkptX (bestModelPath "l") = some content →
      postTrain fsCkptX "l" (some (1/2)) =
        (⟨[(bestModelPath "l", finalModelPath "l")],
          .ok (some (finalModelPath "l"))⟩,
         fsCkptX.update (finalModelPath "l") content) ∧
      fsCkptX.update (finalModelPath "l") content (bestModelPath "l")
          = fsCkptX (bestModelPath "l") ∧
      fsCkptX.update (finalModelPath "l") content (finalModelPath "l")
          = some content) :=
  promotion_amended fsCkptX "l" (1/2) (by decide)

/-- The empty schema file system: no input file exists anywhere. -/
def fsEmpty : FS DataYaml := fun _ => none

/-- Claim C9 counterexample: with a missing input schema path the pipeline
does fail with the not-found error before training, but only after having
created the output directory — the list of directories created before the
failure is not empty. -/
theorem notfound_counterexample :
    (pipelinePre fsEmpty "missing.yaml" "x" 100 16 640 false).result
        = .error .notFound ∧
    (pipelinePre fsEmpty "missing.yaml" "x" 100 16 640 false).mkdirs
        = [outputDir] ∧
    (pipelinePre fsEmpty "missing.yaml" "x" 100 16 640 false).mkdirs ≠ [] :=
  ⟨rfl, rfl, by decide⟩

/-- Claim C9 (amended): for every missing input schema path the pipeline
fails with the not-found error before any training configuration is built
and writes no schema file, but the output directory has already been
created by the `mkdir` that precedes the input check. -/
theorem notfound_amended (fs : FS DataYaml) (p s : String) (e b i : Nat)
    (c : Bool) (h : fs p = none) :
    (pipelinePre fs p s e b i c).result = .error .notFound ∧
    (pipelinePre fs p s e b i c).fs = fs ∧
    (pipelinePre fs p s e b i c).mkdirs = [outputDir] := by
  unfold pipelinePre create_enhanced_data_yaml
  rw [h]
  exact ⟨rfl, rfl, rfl⟩

theorem notfound_amended_witness :
    (pipelinePre fsEmpty "data.yaml" "s" 100 16 640 true).result
        = .error .notFound ∧
    (pipelinePre fsEmpty "data.yaml" "s" 100 16 640 true).fs = fsEmpty ∧
    (pipelinePre fsEmpty "data.yaml" "s" 100 16 640 true).mkdirs = [outputDir] :=
  notfound_amended fsEmpty "data.yaml" "s" 100 16 640 true rfl

/-- A schema file system whose input file already lists the required class. -/
def fsAlreadyAugmented : FS DataYaml :=
  fun p => if p = "data.yaml"
    then some ⟨some ["wall", "floor", "ceiling"], some 3, []⟩ else none

/-- Claim C1: evaluated at an input schema that already contains the
required class, the pipeline writes nothing at the enhanced output path,
yet the training configuration's dataset reference and the validation call's
dataset argument are that enhanced path, not the original input path — the
referenced schema file does not exist on this branch. -/
theorem enhanced_path_referenced_but_unwritten :
    (pipelinePre fsAlreadyAugmented "data.yaml" "x" 100 16 640 false).fs
        enhancedYamlPath = none ∧
    (∃ d ta,
      (pipelinePre fsAlreadyAugmented "data.yaml" "x" 100 16 640 false).result
          = .ok (d, ta) ∧
      ta.data = enhancedYamlPath) ∧
    valDataArg = enhancedYamlPath ∧
    enhancedYamlPath ≠ "data.yaml" :=
  ⟨rfl,
   ⟨⟨some ["wall", "floor", "ceiling"], some 3, []⟩,
    training_args "x" 100 16 640 false, rfl, rfl⟩,
   rfl, by decide⟩

end RoomSeg
